import Mathlib

/-!
Shallow embedding of `src/pytorch_lightning/module.py` (classes `BaseModule`
and `BaseDataModule`) from the `ds_utils` repository, together with proofs of
the specification claims.

Python values are modelled as follows: Python `float` values become `ℚ`
(the code only copies, multiplies and truncates them, never relying on
rounding), Python `int` becomes `ℤ` (or `ℕ` where the source value is a
count), dictionaries become association lists `List (String × _)`, and
exceptions become `Except PyErr _`.
-/

/-- The Python exception kinds raised by the code paths modelled here. -/
inductive PyErr where
  | assertionError
  | attributeError
  | stopIteration
  | unboundLocalError
  deriving DecidableEq, Repr

/-- A Python number together with its runtime type tag: the source
distinguishes `type(x) == float` from `int`. -/
inductive PyNum where
  | int (n : ℤ)
  | float (q : ℚ)
  deriving DecidableEq, Repr

/-- A scalar hyperparameter value (number or string), as stored inside a
hyperparameter section such as `scheduler`. -/
inductive HVal where
  | num (v : PyNum)
  | str (s : String)
  deriving DecidableEq, Repr

/-- Python `int(q)` on a rational: truncation toward zero. -/
def ratTrunc (q : ℚ) : ℤ :=
  if 0 ≤ q then q.floor else q.ceil

/-- Dictionary lookup (`d[k]` / `d.get(k)`): first binding of the key. -/
def getKey {α : Type} (d : List (String × α)) (k : String) : Option α :=
  match d with
  | [] => none
  | (k', v) :: rest => if k' = k then some v else getKey rest k

/-- Key membership test (`k in d`). -/
def hasKey {α : Type} (d : List (String × α)) (k : String) : Bool :=
  (getKey d k).isSome

/-- Dictionary assignment `d[k] = v`: overwrite the first binding of `k`,
or append a new binding. -/
def setKey {α : Type} (d : List (String × α)) (k : String) (v : α) :
    List (String × α) :=
  match d with
  | [] => [(k, v)]
  | (k', v') :: rest =>
      if k' = k then (k, v) :: rest else (k', v') :: setKey rest k v

/-- `BaseModule.check_hyperparameters`: asserts that both `trainer` and
`optimizer` are keys of the supplied mapping.  A pure check: it reads the
mapping and either passes (`ok`) or raises `AssertionError`. -/
def check_hyperparameters {α : Type} (hparams : List (String × α)) :
    Except PyErr Unit :=
  if hasKey hparams "trainer" then
    if hasKey hparams "optimizer" then .ok ()
    else .error .assertionError
  else .error .assertionError

/-- `BaseModule.save_hyperparameters`: runs the check, then merges every
key of `hparams` into the instance's configuration store
(`self.hparams[k] = v` for each item, in order). -/
def save_hyperparameters {α : Type} (store hparams : List (String × α)) :
    Except PyErr (List (String × α)) :=
  match check_hyperparameters hparams with
  | .error e => .error e
  | .ok () => .ok (hparams.foldl (fun s kv => setKey s kv.1 kv.2) store)

/-- The fixed no-decay exclusion list from `BaseModule.param_groups`. -/
def no_decay : List String := ["bias", "bn", "ln", "norm"]

/-- `any(nd in n.lower() for nd in no_decay)`: does the lowercased
parameter name contain one of the excluded substrings? -/
def isNoDecayName (n : String) : Bool :=
  no_decay.any (fun nd => decide (nd.toList <:+: n.toLower.toList))

/-- One parameter group: a list of parameters and a weight-decay
coefficient, as built by `BaseModule.param_groups`. -/
structure ParamGroup (P : Type) where
  params : List P
  weight_decay : ℚ
  deriving DecidableEq, Repr

/-- The `optimizer` section of the hyperparameters: `optimizer.name` and
the `optimizer.params` dictionary of numeric keyword arguments. -/
structure OptimizerConf where
  name : String
  params : List (String × ℚ)
  deriving DecidableEq, Repr

/-- `BaseModule.param_groups`: split the named parameters into the decay
group (weight decay read from `optimizer.params.get('weight_decay', 0.0)`)
and the no-decay group (weight decay `0.0`). -/
def param_groups {P : Type} (named_parameters : List (String × P))
    (optimizer : OptimizerConf) : List (ParamGroup P) :=
  [ { params := (named_parameters.filter
        (fun np => !isNoDecayName np.1)).map Prod.snd,
      weight_decay := (getKey optimizer.params "weight_decay").getD 0 },
    { params := (named_parameters.filter
        (fun np => isNoDecayName np.1)).map Prod.snd,
      weight_decay := 0 } ]

/-- The trainer state read by `BaseModule`'s schedule computations. -/
structure Trainer where
  limit_train_batches : PyNum
  num_gpus : ℕ
  num_processes : ℕ
  tpu_cores : Option ℕ
  max_steps : Option ℤ
  distributed_backend : Option String
  accumulate_grad_batches : ℕ
  max_epochs : ℕ
  deriving DecidableEq, Repr

/-- Python truthiness of an optional integer (`if x:`): `None` and `0`
are falsy. -/
def optTruthy (x : Option ℤ) : Bool :=
  match x with
  | none => false
  | some n => n != 0

/-- `BaseModule.num_train_batches`: the train-loader batch count
`rawBatches = len(self.train_dataloader())`, limited by
`trainer.limit_train_batches`: scaled and truncated if the limit is a
float, otherwise the minimum of the limit and the raw count. -/
def num_train_batches (t : Trainer) (rawBatches : ℕ) : ℤ :=
  match t.limit_train_batches with
  | .float q => ratTrunc ((rawBatches : ℚ) * q)
  | .int n => min n (rawBatches : ℤ)

/-- `BaseModule.num_devices`: `max(1, num_gpus, num_processes)`, further
maxed with `tpu_cores` when that is truthy. -/
def num_devices (t : Trainer) : ℕ :=
  let nd := max (max 1 t.num_gpus) t.num_processes
  match t.tpu_cores with
  | some c => if c ≠ 0 then max nd c else nd
  | none => nd

/-- `BaseModule.num_training_steps`: the explicit `trainer.max_steps` when
truthy; otherwise `num_train_batches // effective_accum * max_epochs`,
where `effective_accum = accumulate_grad_batches * num_devices` and the
device count is forced to `1` under the `dp` backend.  Python `//` is
floor division, `Int.fdiv`. -/
def num_training_steps (t : Trainer) (rawBatches : ℕ) : ℤ :=
  if optTruthy t.max_steps then t.max_steps.getD 0
  else
    let nd : ℕ :=
      if t.distributed_backend = some "dp" then 1 else num_devices t
    let effective_accum : ℤ := (t.accumulate_grad_batches : ℤ) * (nd : ℤ)
    Int.fdiv (num_train_batches t rawBatches) effective_accum * t.max_epochs

/-- The stored hyperparameters as read by `BaseModule`'s computations:
the validated `optimizer` section and the optional `scheduler` section
(a dictionary of scalar values; absent key means `self.hparams.scheduler`
raises `AttributeError`). -/
structure HParams where
  optimizer : OptimizerConf
  scheduler : Option (List (String × HVal))
  deriving DecidableEq, Repr

/-- `BaseModule.num_warmup_steps`: reads
`self.hparams.scheduler.get('warmup_size', 0)` (raising `AttributeError`
when there is no `scheduler` section), then returns
`int(num_training_steps * warmup_size)` when the value is a float and the
value itself otherwise.  `steps` is `self.num_training_steps`. -/
def num_warmup_steps (hp : HParams) (steps : ℤ) : Except PyErr HVal :=
  match hp.scheduler with
  | none => .error .attributeError
  | some sched =>
      match (getKey sched "warmup_size").getD (.num (.int 0)) with
      | .num (.float q) => .ok (.num (.int (ratTrunc ((steps : ℚ) * q))))
      | v => .ok v

/-- The value returned by `BaseModule.configure_optimizers`: either the
optimizer alone, or the pair `([optimizer], [scheduler])`. -/
inductive OptimizersResult (Opt Sch : Type) where
  | single (o : Opt)
  | pair (os : List Opt) (ss : List Sch)
  deriving DecidableEq, Repr

/-- `BaseModule.configure_optimizers`: build the optimizer through the
external factory `get_optimizer` keyed by `optimizer.name` with
`param_groups()` and the `optimizer.params` keyword arguments; when a
`scheduler` section exists, also build a scheduler through `get_scheduler`
keyed by `scheduler.name` with the optimizer, the warmup steps and the
total steps, returning `([optimizer], [scheduler])`.  All factory failures
propagate unchanged. -/
def configure_optimizers {P Opt Sch : Type}
    (get_optimizer :
      String → List (ParamGroup P) → List (String × ℚ) → Except PyErr Opt)
    (get_scheduler : String → Opt → HVal → ℤ → Except PyErr Sch)
    (hp : HParams) (named_parameters : List (String × P))
    (t : Trainer) (rawBatches : ℕ) :
    Except PyErr (OptimizersResult Opt Sch) := do
  let optimizer ← get_optimizer hp.optimizer.name
    (param_groups named_parameters hp.optimizer) hp.optimizer.params
  match hp.scheduler with
  | some sched => do
      let schedName ←
        match getKey sched "name" with
        | some (.str s) => Except.ok s
        | _ => Except.error .attributeError
      let warmup ← num_warmup_steps hp (num_training_steps t rawBatches)
      let scheduler ←
        get_scheduler schedName optimizer warmup (num_training_steps t rawBatches)
      return .pair [optimizer] [scheduler]
  | none => return .single optimizer

/-- A constructed `torch.utils.data.DataLoader`: the loader is an external
collaborator, so the model records exactly the arguments the code passes
to its constructor (`dataset`, `batch_size`, `shuffle`, `collate_fn`).
`γ` is the type of collation functions, kept abstract. -/
structure DataLoader (α γ : Type) where
  dataset : List α
  batch_size : ℕ
  shuffle : Bool
  collate_fn : Option γ
  deriving DecidableEq, Repr

/-- The state of a `BaseDataModule` instance after construction and a
(possibly skipped) `setup` call.  For the train dataset, `none` models the
attribute never having been assigned (access raises `AttributeError`);
for the other three, `none` models the handle being assigned `None`. -/
structure BaseDataModule (α γ : Type) where
  batch_size : ℕ
  collate_fn : Option γ
  train_dataset : Option (List α)
  val_dataset : Option (List α)
  test_dataset : Option (List α)
  predict_dataset : Option (List α)
  deriving DecidableEq, Repr

/-- `BaseDataModule.train_dataloader`: raises `AttributeError` when the
train dataset was never assigned, else a fresh shuffling loader. -/
def train_dataloader {α γ : Type} (m : BaseDataModule α γ) :
    Except PyErr (DataLoader α γ) :=
  match m.train_dataset with
  | none => .error .attributeError
  | some ds => .ok ⟨ds, m.batch_size, true, m.collate_fn⟩

/-- `BaseDataModule.val_dataloader`: `None` when the val dataset is
`None`, else a fresh non-shuffling loader. -/
def val_dataloader {α γ : Type} (m : BaseDataModule α γ) :
    Option (DataLoader α γ) :=
  m.val_dataset.map (fun ds => ⟨ds, m.batch_size, false, m.collate_fn⟩)

/-- `BaseDataModule.test_dataloader`: `None` when the test dataset is
`None`, else a fresh non-shuffling loader. -/
def test_dataloader {α γ : Type} (m : BaseDataModule α γ) :
    Option (DataLoader α γ) :=
  m.test_dataset.map (fun ds => ⟨ds, m.batch_size, false, m.collate_fn⟩)

/-- `BaseDataModule.predict_dataloader`: `None` when the predict dataset
is `None`, else a fresh non-shuffling loader. -/
def predict_dataloader {α γ : Type} (m : BaseDataModule α γ) :
    Option (DataLoader α γ) :=
  m.predict_dataset.map (fun ds => ⟨ds, m.batch_size, false, m.collate_fn⟩)

/-- `BaseDataModule.sample(dataset_name)`: resolve the loader named by
`dataset_name` (an unrecognized name leaves the local `loader` unbound,
an `UnboundLocalError`), then `next(iter(loader))` — the first batch the
loader produces (raising `StopIteration` on an empty loader) — or `None`
when the loader is `None`.  The external loader's batch production is the
abstract parameter `batchesOf`. -/
def sample {α γ β : Type} (m : BaseDataModule α γ)
    (batchesOf : DataLoader α γ → List β) (dataset_name : String) :
    Except PyErr (Option β) := do
  let loader? : Option (DataLoader α γ) ←
    if dataset_name = "train" then (train_dataloader m).map some
    else if dataset_name = "val" then .ok (val_dataloader m)
    else if dataset_name = "test" then .ok (test_dataloader m)
    else if dataset_name = "predict" then .ok (predict_dataloader m)
    else .error .unboundLocalError
  match loader? with
  | none => return none
  | some loader =>
      match (batchesOf loader).head? with
      | some b => return (some b)
      | none => .error .stopIteration

theorem getKey_setKey {α : Type} (d : List (String × α)) (k k' : String) (v : α) :
    getKey (setKey d k v) k' = if k = k' then some v else getKey d k' := by
  induction d with
  | nil => simp [setKey, getKey]
  | cons hd tl ih =>
      obtain ⟨a, b⟩ := hd
      by_cases hak : a = k
      · subst hak
        simp only [setKey, if_pos rfl, getKey]
        by_cases hk : a = k'
        · simp [hk]
        · simp [hk]
      · simp only [setKey, if_neg hak, getKey]
        by_cases hk : a = k'
        · subst hk
          have hne : ¬ k = a := fun h => hak h.symm
          simp [hne]
        · simp [hk, ih]

theorem hasKey_iff_mem {α : Type} (d : List (String × α)) (k : String) :
    hasKey d k = true ↔ k ∈ d.map Prod.fst := by
  induction d with
  | nil => simp [hasKey, getKey]
  | cons hd tl ih =>
      obtain ⟨a, b⟩ := hd
      by_cases hk : a = k
      · subst hk
        simp [hasKey, getKey]
      · have h1 : hasKey ((a, b) :: tl) k = hasKey tl k := by
          simp [hasKey, getKey, if_neg hk]
        have hka : ¬ k = a := fun h => hk h.symm
        rw [h1, ih]
        simp [List.mem_cons, hka]

theorem getKey_merge {α : Type} (store hparams : List (String × α))
    (hnd : (hparams.map Prod.fst).Nodup) (k : String) :
    getKey (hparams.foldl (fun s kv => setKey s kv.1 kv.2) store) k =
      if hasKey hparams k then getKey hparams k else getKey store k := by
  induction hparams generalizing store with
  | nil => simp [hasKey, getKey]
  | cons hd tl ih =>
      obtain ⟨a, b⟩ := hd
      simp only [List.map_cons, List.nodup_cons] at hnd
      obtain ⟨ha, htl⟩ := hnd
      simp only [List.foldl_cons]
      rw [ih _ htl, getKey_setKey]
      by_cases hak : a = k
      · subst hak
        have htlk : ¬ hasKey tl a = true := fun h => ha ((hasKey_iff_mem tl a).1 h)
        simp only [if_pos rfl]
        rw [if_neg htlk]
        have hc : hasKey ((a, b) :: tl) a = true := by simp [hasKey, getKey]
        rw [if_pos hc]
        simp [getKey]
      · simp only [if_neg hak]
        have hc : hasKey ((a, b) :: tl) k = hasKey tl k := by
          simp [hasKey, getKey, if_neg hak]
        rw [hc]
        by_cases htk : hasKey tl k = true
        · rw [if_pos htk, if_pos htk]
          simp [getKey, if_neg hak]
        · rw [if_neg htk, if_neg htk]

theorem ratFloor_eq_floor (q : ℚ) : q.floor = ⌊q⌋ := by
  rw [Rat.floor_def' q, Rat.floor_def]

/-- C1: a hyperparameter mapping lacking `trainer` or `optimizer` makes the
check fail and `save_hyperparameters` raise with nothing stored; the check
is a pure function of the mapping, and when both keys are present every key
of the mapping is merged into the store, overwriting on collision and
preserving the other existing keys. -/
theorem save_hyperparameters_spec {α : Type} (store hparams : List (String × α))
    (hnd : (hparams.map Prod.fst).Nodup) :
    ((hasKey hparams "trainer" = false ∨ hasKey hparams "optimizer" = false) →
      check_hyperparameters hparams = .error .assertionError ∧
      save_hyperparameters store hparams = .error .assertionError) ∧
    (hasKey hparams "trainer" = true → hasKey hparams "optimizer" = true →
      check_hyperparameters hparams = .ok () ∧
      ∃ merged, save_hyperparameters store hparams = .ok merged ∧
        ∀ k, getKey merged k =
          if hasKey hparams k then getKey hparams k else getKey store k) := by
  constructor
  · rintro (h | h)
    · have hc : check_hyperparameters hparams = .error .assertionError := by
        simp [check_hyperparameters, h]
      exact ⟨hc, by simp [save_hyperparameters, hc]⟩
    · have hc : check_hyperparameters hparams = .error .assertionError := by
        unfold check_hyperparameters
        by_cases ht : hasKey hparams "trainer" <;> simp [ht, h]
      exact ⟨hc, by simp [save_hyperparameters, hc]⟩
  · intro ht ho
    have hc : check_hyperparameters hparams = .ok () := by
      simp [check_hyperparameters, ht, ho]
    exact ⟨hc, _, by simp [save_hyperparameters, hc],
      fun k => getKey_merge store hparams hnd k⟩

theorem save_hyperparameters_spec_witness :
    check_hyperparameters [("trainer", (1 : ℤ)), ("optimizer", 2), ("lr", 3)] = .ok () ∧
    ∃ merged,
      save_hyperparameters [("old", (7 : ℤ)), ("lr", 9)]
        [("trainer", 1), ("optimizer", 2), ("lr", 3)] = .ok merged ∧
      ∀ k, getKey merged k =
        if hasKey [("trainer", (1 : ℤ)), ("optimizer", 2), ("lr", 3)] k
        then getKey [("trainer", (1 : ℤ)), ("optimizer", 2), ("lr", 3)] k
        else getKey [("old", (7 : ℤ)), ("lr", 9)] k :=
  (save_hyperparameters_spec [("old", 7), ("lr", 9)]
    [("trainer", 1), ("optimizer", 2), ("lr", 3)] (by decide)).2 (by decide) (by decide)

/-- C2: `param_groups` returns exactly two groups partitioning the named
parameters; a parameter lands in the no-decay group exactly when its
lowercased name contains one of "bias", "bn", "ln", "norm"; the no-decay
coefficient is always 0 and the decay coefficient is
`optimizer.params.weight_decay`, defaulting to 0 when absent. -/
theorem param_groups_spec {P : Type} (named_parameters : List (String × P))
    (optimizer : OptimizerConf) :
    ∃ decay nodecay,
      param_groups named_parameters optimizer = [decay, nodecay] ∧
      (decay.params ++ nodecay.params).Perm (named_parameters.map Prod.snd) ∧
      (∀ np ∈ named_parameters,
        (isNoDecayName np.1 = true → np.2 ∈ nodecay.params) ∧
        (isNoDecayName np.1 = false → np.2 ∈ decay.params)) ∧
      nodecay.weight_decay = 0 ∧
      (∀ w, getKey optimizer.params "weight_decay" = some w →
        decay.weight_decay = w) ∧
      (getKey optimizer.params "weight_decay" = none → decay.weight_decay = 0) ∧
      (∀ n : String, isNoDecayName n = true ↔
        ∃ nd ∈ no_decay, nd.toList <:+: n.toLower.toList) := by
  refine ⟨_, _, rfl, ?_, ?_, rfl, ?_, ?_, ?_⟩
  · have h := List.filter_append_perm
      (fun np : String × P => isNoDecayName np.1) named_parameters
    have h2 := (List.perm_append_comm.trans h).map Prod.snd
    rw [List.map_append] at h2
    exact h2
  · intro np hmem
    constructor
    · intro h
      exact List.mem_map_of_mem _ (List.mem_filter.2 ⟨hmem, h⟩)
    · intro h
      exact List.mem_map_of_mem _ (List.mem_filter.2 ⟨hmem, by simp [h]⟩)
  · intro w hw
    simp [hw]
  · intro hw
    simp [hw]
  · intro n
    simp [isNoDecayName, List.any_eq_true]

theorem param_groups_spec_witness :
    ∃ decay nodecay,
      param_groups [("fc.weight", (10 : ℤ)), ("fc.bias", 20), ("LN.weight", 30)]
          ⟨"adamw", [("weight_decay", (1 : ℚ)/100)]⟩ = [decay, nodecay] ∧
      (decay.params ++ nodecay.params).Perm
        ([("fc.weight", (10 : ℤ)), ("fc.bias", 20), ("LN.weight", 30)].map Prod.snd) ∧
      (∀ np ∈ [("fc.weight", (10 : ℤ)), ("fc.bias", 20), ("LN.weight", 30)],
        (isNoDecayName np.1 = true → np.2 ∈ nodecay.params) ∧
        (isNoDecayName np.1 = false → np.2 ∈ decay.params)) ∧
      nodecay.weight_decay = 0 ∧
      (∀ w, getKey [("weight_decay", (1 : ℚ)/100)] "weight_decay" = some w →
        decay.weight_decay = w) ∧
      (getKey [("weight_decay", (1 : ℚ)/100)] "weight_decay" = none →
        decay.weight_decay = 0) ∧
      (∀ n : String, isNoDecayName n = true ↔
        ∃ nd ∈ no_decay, nd.toList <:+: n.toLower.toList) :=
  param_groups_spec [("fc.weight", (10 : ℤ)), ("fc.bias", 20), ("LN.weight", 30)]
    ⟨"adamw", [("weight_decay", (1 : ℚ)/100)]⟩

/-- C3: `num_training_steps` returns a truthy `trainer.max_steps` unchanged;
otherwise it is `num_train_batches // (accumulate_grad_batches * effective
devices) * max_epochs`, with the effective device count forced to 1 under
the `dp` backend; in particular 100 raw batches, limit 1.0, accumulation 2,
1 device, 3 epochs give 150, and `dp` with 4 GPUs still gives 150. -/
theorem num_training_steps_spec (t : Trainer) (rawBatches : ℕ) :
    (∀ m : ℤ, t.max_steps = some m → m ≠ 0 →
      num_training_steps t rawBatches = m) ∧
    (optTruthy t.max_steps = false →
      num_training_steps t rawBatches =
        Int.fdiv (num_train_batches t rawBatches)
            ((t.accumulate_grad_batches : ℤ) *
              (if t.distributed_backend = some "dp" then 1
               else (num_devices t : ℤ))) *
          (t.max_epochs : ℤ)) ∧
    num_training_steps ⟨.float 1, 1, 1, none, none, none, 2, 3⟩ 100 = 150 ∧
    num_training_steps ⟨.float 1, 4, 1, none, none, some "dp", 2, 3⟩ 100 = 150 := by
  refine ⟨?_, ?_, ?_, ?_⟩
  · intro m hm hm0
    simp [num_training_steps, optTruthy, hm, hm0]
  · intro h
    by_cases hdp : t.distributed_backend = some "dp" <;>
      simp [num_training_steps, h, hdp]
  · norm_num [num_training_steps, optTruthy, num_devices, num_train_batches,
      ratTrunc, ratFloor_eq_floor]
    decide
  · norm_num [num_training_steps, optTruthy, num_devices, num_train_batches,
      ratTrunc, ratFloor_eq_floor]
    decide

theorem num_training_steps_spec_witness :
    num_training_steps ⟨.float 1, 1, 1, none, some 77, none, 2, 3⟩ 100 = 77 ∧
    num_training_steps ⟨.float 1, 1, 1, none, none, none, 2, 3⟩ 100 = 150 := by
  constructor
  · exact (num_training_steps_spec ⟨.float 1, 1, 1, none, some 77, none, 2, 3⟩ 100).1
      77 rfl (by decide)
  · exact (num_training_steps_spec ⟨.float 1, 1, 1, none, none, none, 2, 3⟩ 100).2.2.1

/-- C9: a `max_steps` of exactly 0 is falsy, so `num_training_steps` ignores
it like `None` and returns the computed formula instead of 0. -/
theorem num_training_steps_zero_guard (t : Trainer) (rawBatches : ℕ)
    (h : t.max_steps = some 0) :
    num_training_steps t rawBatches =
      Int.fdiv (num_train_batches t rawBatches)
          ((t.accumulate_grad_batches : ℤ) *
            (if t.distributed_backend = some "dp" then 1
             else (num_devices t : ℤ))) *
        (t.max_epochs : ℤ) ∧
    num_training_steps t rawBatches =
      num_training_steps { t with max_steps := none } rawBatches := by
  constructor
  · by_cases hdp : t.distributed_backend = some "dp" <;>
      simp [num_training_steps, optTruthy, h, hdp]
  · by_cases hdp : t.distributed_backend = some "dp" <;>
      simp [num_training_steps, optTruthy, h, hdp, num_train_batches, num_devices]

theorem num_training_steps_zero_guard_witness :
    num_training_steps ⟨.float 1, 1, 1, none, some 0, none, 2, 3⟩ 100 = 150 ∧
    num_training_steps ⟨.float 1, 1, 1, none, some 0, none, 2, 3⟩ 100 ≠ 0 := by
  have h := (num_training_steps_zero_guard
    ⟨.float 1, 1, 1, none, some 0, none, 2, 3⟩ 100 rfl).1
  rw [h]
  constructor <;>
    · norm_num [num_train_batches, num_devices, ratTrunc, ratFloor_eq_floor]
      decide

/-- C4: `num_warmup_steps` reads `scheduler.warmup_size` with default 0;
a float value gives `int(num_training_steps * warmup_size)` (truncation),
an integer value is returned as-is regardless of the total step count;
0.1 of 150 steps gives 15, and 20 gives 20. -/
theorem num_warmup_steps_spec (hp : HParams) (sched : List (String × HVal))
    (steps : ℤ) (hs : hp.scheduler = some sched) :
    (getKey sched "warmup_size" = none →
      num_warmup_steps hp steps = .ok (.num (.int 0))) ∧
    (∀ q : ℚ, getKey sched "warmup_size" = some (.num (.float q)) →
      num_warmup_steps hp steps = .ok (.num (.int (ratTrunc ((steps : ℚ) * q))))) ∧
    (∀ n : ℤ, getKey sched "warmup_size" = some (.num (.int n)) →
      num_warmup_steps hp steps = .ok (.num (.int n))) ∧
    num_warmup_steps ⟨⟨"adamw", []⟩, some [("warmup_size", .num (.float (1/10)))]⟩ 150 =
      .ok (.num (.int 15)) ∧
    (∀ s : ℤ, num_warmup_steps ⟨⟨"adamw", []⟩, some [("warmup_size", .num (.int 20))]⟩ s =
      .ok (.num (.int 20))) := by
  refine ⟨?_, ?_, ?_, ?_, ?_⟩
  · intro h
    simp [num_warmup_steps, hs, h]
  · intro q h
    simp [num_warmup_steps, hs, h]
  · intro n h
    simp [num_warmup_steps, hs, h]
  · norm_num [num_warmup_steps, getKey, ratTrunc, ratFloor_eq_floor]
  · intro s
    simp [num_warmup_steps, getKey]

theorem num_warmup_steps_spec_witness :
    num_warmup_steps ⟨⟨"adamw", []⟩, some [("warmup_size", .num (.float (1/10)))]⟩ 150 =
      .ok (.num (.int 15)) :=
  (num_warmup_steps_spec ⟨⟨"adamw", []⟩, some [("warmup_size", .num (.float (1/10)))]⟩
    [("warmup_size", .num (.float (1/10)))] 150 rfl).2.2.2.1

/-- C10: with no `scheduler` key in the stored hyperparameters,
`num_warmup_steps` raises `AttributeError` instead of returning the
documented default 0: the default only covers a missing `warmup_size`
inside an existing scheduler section. -/
theorem num_warmup_steps_no_scheduler (hp : HParams) (steps : ℤ)
    (h : hp.scheduler = none) :
    num_warmup_steps hp steps = .error .attributeError ∧
    num_warmup_steps hp steps ≠ .ok (.num (.int 0)) := by
  have he : num_warmup_steps hp steps = .error .attributeError := by
    simp [num_warmup_steps, h]
  exact ⟨he, by simp [he]⟩

theorem num_warmup_steps_no_scheduler_witness :
    num_warmup_steps ⟨⟨"adamw", []⟩, none⟩ 150 = .error .attributeError ∧
    num_warmup_steps ⟨⟨"adamw", []⟩, none⟩ 150 ≠ .ok (.num (.int 0)) :=
  num_warmup_steps_no_scheduler ⟨⟨"adamw", []⟩, none⟩ 150 rfl

/-- C5: `num_train_batches` limits the raw per-epoch batch count: a float
limit in (0,1] scales the raw count and truncates toward zero (never
negative, never more than the raw count), an integer limit takes the
minimum with the raw count. -/
theorem num_train_batches_spec (t : Trainer) (rawBatches : ℕ) :
    (∀ q : ℚ, t.limit_train_batches = .float q → 0 < q → q ≤ 1 →
      num_train_batches t rawBatches = ⌊(rawBatches : ℚ) * q⌋ ∧
      0 ≤ num_train_batches t rawBatches ∧
      num_train_batches t rawBatches ≤ (rawBatches : ℤ)) ∧
    (∀ n : ℤ, t.limit_train_batches = .int n →
      num_train_batches t rawBatches = min n (rawBatches : ℤ)) := by
  constructor
  · intro q hq hq0 hq1
    have hnn : (0 : ℚ) ≤ (rawBatches : ℚ) * q :=
      mul_nonneg (by positivity) (le_of_lt hq0)
    have heq : num_train_batches t rawBatches = ⌊(rawBatches : ℚ) * q⌋ := by
      simp only [num_train_batches, hq, ratTrunc, if_pos hnn]
      exact ratFloor_eq_floor _
    refine ⟨heq, ?_, ?_⟩
    · rw [heq]
      exact Int.floor_nonneg.2 hnn
    · rw [heq]
      have hle : (rawBatches : ℚ) * q ≤ (rawBatches : ℚ) :=
        mul_le_of_le_one_right (by positivity) hq1
      have h2 := Int.floor_le_floor hle
      simpa using h2
  · intro n hn
    simp [num_train_batches, hn]

theorem num_train_batches_spec_witness :
    (num_train_batches ⟨.float (3/10), 1, 1, none, none, none, 1, 1⟩ 7 =
        ⌊(7 : ℚ) * (3/10)⌋ ∧
      0 ≤ num_train_batches ⟨.float (3/10), 1, 1, none, none, none, 1, 1⟩ 7 ∧
      num_train_batches ⟨.float (3/10), 1, 1, none, none, none, 1, 1⟩ 7 ≤ (7 : ℤ)) ∧
    num_train_batches ⟨.int 5, 1, 1, none, none, none, 1, 1⟩ 7 = min (5 : ℤ) (7 : ℤ) :=
  ⟨(num_train_batches_spec ⟨.float (3/10), 1, 1, none, none, none, 1, 1⟩ 7).1
      (3/10) rfl (by norm_num) (by norm_num),
    (num_train_batches_spec ⟨.int 5, 1, 1, none, none, none, 1, 1⟩ 7).2 5 rfl⟩

/-- C6: `configure_optimizers` builds the optimizer via the external
factory keyed by `optimizer.name`, passing `param_groups()` and all
`optimizer.params`; with a `scheduler` section present it also builds a
scheduler via the external factory keyed by `scheduler.name` (passing the
optimizer, the warmup steps and the total steps) and returns
`([optimizer], [scheduler])`; with no scheduler it returns the optimizer
alone; factory failures propagate unmodified. -/
theorem configure_optimizers_spec {P Opt Sch : Type}
    (get_optimizer :
      String → List (ParamGroup P) → List (String × ℚ) → Except PyErr Opt)
    (get_scheduler : String → Opt → HVal → ℤ → Except PyErr Sch)
    (hp : HParams) (named_parameters : List (String × P))
    (t : Trainer) (rawBatches : ℕ) :
    (∀ e, get_optimizer hp.optimizer.name
        (param_groups named_parameters hp.optimizer) hp.optimizer.params = .error e →
      configure_optimizers get_optimizer get_scheduler hp named_parameters t rawBatches =
        .error e) ∧
    (∀ o, get_optimizer hp.optimizer.name
        (param_groups named_parameters hp.optimizer) hp.optimizer.params = .ok o →
      (hp.scheduler = none →
        configure_optimizers get_optimizer get_scheduler hp named_parameters t rawBatches =
          .ok (.single o)) ∧
      (∀ sched schedName, hp.scheduler = some sched →
          getKey sched "name" = some (.str schedName) →
        ∀ w, num_warmup_steps hp (num_training_steps t rawBatches) = .ok w →
          (∀ s, get_scheduler schedName o w (num_training_steps t rawBatches) = .ok s →
            configure_optimizers get_optimizer get_scheduler hp named_parameters
              t rawBatches = .ok (.pair [o] [s])) ∧
          (∀ e, get_scheduler schedName o w (num_training_steps t rawBatches) = .error e →
            configure_optimizers get_optimizer get_scheduler hp named_parameters
              t rawBatches = .error e))) := by
  constructor
  · intro e hgo
    simp [configure_optimizers, hgo, Bind.bind, Except.bind]
  · intro o hgo
    constructor
    · intro hs
      simp [configure_optimizers, hgo, hs, Bind.bind, Except.bind,
        Pure.pure, Except.pure]
    · intro sched schedName hs hname w hw
      constructor
      · intro s hgs
        simp [configure_optimizers, hgo, hs, hname, hw, hgs, Bind.bind,
          Except.bind, Pure.pure, Except.pure]
      · intro e hgs
        simp [configure_optimizers, hgo, hs, hname, hw, hgs, Bind.bind,
          Except.bind, Pure.pure, Except.pure]

theorem configure_optimizers_spec_witness :
    configure_optimizers (fun _ _ _ => Except.ok 7) (fun _ _ _ _ => Except.ok 3)
      ⟨⟨"adamw", []⟩, some [("name", HVal.str "linear")]⟩ ([] : List (String × ℕ))
      ⟨.float 1, 1, 1, none, none, none, 2, 3⟩ 100 =
      .ok (.pair [7] [3]) :=
  by
  have h := (configure_optimizers_spec (fun _ _ _ => Except.ok 7)
    (fun _ _ _ _ => Except.ok 3)
    ⟨⟨"adamw", []⟩, some [("name", HVal.str "linear")]⟩ ([] : List (String × ℕ))
    ⟨.float 1, 1, 1, none, none, none, 2, 3⟩ 100).2 7 rfl
  exact (h.2 [("name", HVal.str "linear")] "linear" rfl (by decide)
    (.num (.int 0)) (by simp [num_warmup_steps, getKey])).1 3 rfl

/-- C7: `train_dataloader` raises an `AttributeError` when `setup` never
assigned a train dataset, and otherwise returns a fresh shuffling loader
with the configured batch size and collation function;
`val_dataloader`, `test_dataloader` and `predict_dataloader` return `None`
when their dataset handle is `None` and otherwise a fresh non-shuffling
loader with the same batch size and collation function. -/
theorem dataloaders_spec {α γ : Type} (m : BaseDataModule α γ) :
    (m.train_dataset = none → train_dataloader m = .error .attributeError) ∧
    (∀ ds, m.train_dataset = some ds →
      train_dataloader m = .ok ⟨ds, m.batch_size, true, m.collate_fn⟩) ∧
    (m.val_dataset = none → val_dataloader m = none) ∧
    (∀ ds, m.val_dataset = some ds →
      val_dataloader m = some ⟨ds, m.batch_size, false, m.collate_fn⟩) ∧
    (m.test_dataset = none → test_dataloader m = none) ∧
    (∀ ds, m.test_dataset = some ds →
      test_dataloader m = some ⟨ds, m.batch_size, false, m.collate_fn⟩) ∧
    (m.predict_dataset = none → predict_dataloader m = none) ∧
    (∀ ds, m.predict_dataset = some ds →
      predict_dataloader m = some ⟨ds, m.batch_size, false, m.collate_fn⟩) := by
  refine ⟨?_, ?_, ?_, ?_, ?_, ?_, ?_, ?_⟩
  · intro h
    simp [train_dataloader, h]
  · intro ds h
    simp [train_dataloader, h]
  · intro h
    simp [val_dataloader, h]
  · intro ds h
    simp [val_dataloader, h]
  · intro h
    simp [test_dataloader, h]
  · intro ds h
    simp [test_dataloader, h]
  · intro h
    simp [predict_dataloader, h]
  · intro ds h
    simp [predict_dataloader, h]

theorem dataloaders_spec_witness :
    train_dataloader (⟨2, some 9, none, none, some [1, 2, 3], none⟩ :
        BaseDataModule ℕ ℕ) = .error .attributeError ∧
    test_dataloader (⟨2, some 9, none, none, some [1, 2, 3], none⟩ :
        BaseDataModule ℕ ℕ) = some ⟨[1, 2, 3], 2, false, some 9⟩ ∧
    val_dataloader (⟨2, some 9, none, none, some [1, 2, 3], none⟩ :
        BaseDataModule ℕ ℕ) = none :=
  ⟨(dataloaders_spec ⟨2, some 9, none, none, some [1, 2, 3], none⟩).1 rfl,
    (dataloaders_spec ⟨2, some 9, none, none, some [1, 2, 3], none⟩).2.2.2.2.2.1
      [1, 2, 3] rfl,
    (dataloaders_spec ⟨2, some 9, none, none, some [1, 2, 3], none⟩).2.2.1 rfl⟩

/-- C8: `sample(name)` materializes the loader named by `name` and returns
the first batch it produces (`None` when the loader itself is `None`,
`StopIteration` on an empty loader, and the train loader's
`AttributeError` propagates); `sample("train")` returns exactly the first
batch the train loader would yield. -/
theorem sample_spec {α γ β : Type} (m : BaseDataModule α γ)
    (batchesOf : DataLoader α γ → List β) :
    (∀ l, train_dataloader m = .ok l →
      (∀ b bs, batchesOf l = b :: bs → sample m batchesOf "train" = .ok (some b)) ∧
      (batchesOf l = [] → sample m batchesOf "train" = .error .stopIteration)) ∧
    (∀ e, train_dataloader m = .error e → sample m batchesOf "train" = .error e) ∧
    (val_dataloader m = none → sample m batchesOf "val" = .ok none) ∧
    (∀ l, val_dataloader m = some l →
      ∀ b bs, batchesOf l = b :: bs → sample m batchesOf "val" = .ok (some b)) ∧
    (test_dataloader m = none → sample m batchesOf "test" = .ok none) ∧
    (∀ l, test_dataloader m = some l →
      ∀ b bs, batchesOf l = b :: bs → sample m batchesOf "test" = .ok (some b)) ∧
    (predict_dataloader m = none → sample m batchesOf "predict" = .ok none) ∧
    (∀ l, predict_dataloader m = some l →
      ∀ b bs, batchesOf l = b :: bs → sample m batchesOf "predict" = .ok (some b)) := by
  refine ⟨?_, ?_, ?_, ?_, ?_, ?_, ?_, ?_⟩
  · intro l hl
    constructor
    · intro b bs hb
      simp [sample, hl, hb, Bind.bind, Except.bind, Except.map,
        Pure.pure, Except.pure]
    · intro hb
      simp [sample, hl, hb, Bind.bind, Except.bind, Except.map,
        Pure.pure, Except.pure]
  · intro e he
    simp [sample, he, Bind.bind, Except.bind, Except.map]
  · intro h
    simp [sample, h, Bind.bind, Except.bind, Pure.pure, Except.pure]
  · intro l hl b bs hb
    simp [sample, hl, hb, Bind.bind, Except.bind, Pure.pure, Except.pure]
  · intro h
    simp [sample, h, Bind.bind, Except.bind, Pure.pure, Except.pure]
  · intro l hl b bs hb
    simp [sample, hl, hb, Bind.bind, Except.bind, Pure.pure, Except.pure]
  · intro h
    simp [sample, h, Bind.bind, Except.bind, Pure.pure, Except.pure]
  · intro l hl b bs hb
    simp [sample, hl, hb, Bind.bind, Except.bind, Pure.pure, Except.pure]

theorem sample_spec_witness :
    sample (⟨2, none, some [10, 20, 30], none, none, none⟩ : BaseDataModule ℕ ℕ)
      (fun l => [l.dataset.take l.batch_size]) "train" = .ok (some [10, 20]) ∧
    sample (⟨2, none, some [10, 20, 30], none, none, none⟩ : BaseDataModule ℕ ℕ)
      (fun l => [l.dataset.take l.batch_size]) "val" = .ok none :=
  ⟨((sample_spec ⟨2, none, some [10, 20, 30], none, none, none⟩
      (fun l => [l.dataset.take l.batch_size])).1
      ⟨[10, 20, 30], 2, true, none⟩ rfl).1 [10, 20] [] (by decide),
    (sample_spec ⟨2, none, some [10, 20, 30], none, none, none⟩
      (fun l => [l.dataset.take l.batch_size])).2.2.1 rfl⟩
